import Mathlib

/-!
Shallow embedding of the conversational house-search pipeline:
the house repository (`data/house_repository.py`), the structured-query
schema (`app/core/search_schema.py`), the query parser
(`app/services/query_parser.py`), the chat service
(`app/services/chat_service.py`) and the generation gateway
(`app/core/llm/openai_client.py`).

Python dict/JSON values are modelled by the inductive type `JVal`;
Python builtins `bool(..)`, `int(..)`, `str(..)` are modelled by
`pyTruthy`, `pythonInt`, `pyStr`.  Code that can raise an uncaught
exception is modelled with `Option`/`Except`; a `none`/`.error` result
models an exception propagating to the caller.  String helpers
(`.strip()`, `.lower()`, substring `in`) are modelled on `List Char`
so that all definitions evaluate by kernel reduction.
-/

/-- A JSON-like Python value: `None`, booleans, integers, strings,
lists and dicts.  (Floats do not occur in any of the modelled data.) -/
inductive JVal where
  | jnull : JVal
  | jbool : Bool → JVal
  | jint : Int → JVal
  | jstr : String → JVal
  | jarr : List JVal → JVal
  | jobj : List (String × JVal) → JVal

/-- Python's `v is None` test. -/
def JVal.isNull : JVal → Bool
  | JVal.jnull => true
  | _ => false

/-- Python truthiness `bool(v)` for a `JVal`. -/
def pyTruthy : JVal → Bool
  | JVal.jnull => false
  | JVal.jbool b => b
  | JVal.jint n => n != 0
  | JVal.jstr s => s != ""
  | JVal.jarr xs => !xs.isEmpty
  | JVal.jobj fs => !fs.isEmpty

/-- Remove leading and trailing whitespace from a character list. -/
def trimChars (cs : List Char) : List Char :=
  ((cs.dropWhile Char.isWhitespace).reverse.dropWhile Char.isWhitespace).reverse

/-- Python `s.strip()`. -/
def pyStrip (s : String) : String :=
  String.mk (trimChars s.toList)

/-- Python `s.lower()` (ASCII case mapping; the modelled inputs contain
no non-ASCII cased letters). -/
def pyLower (s : String) : String :=
  String.mk (s.toList.map Char.toLower)

/-- Whether `p` is a leading segment of `l`. -/
def leadsList (p l : List Char) : Bool :=
  match p, l with
  | [], _ => true
  | _ :: _, [] => false
  | a :: as, b :: bs => (a == b) && leadsList as bs

/-- Python substring test `needle in hay`. -/
def containsSub (needle : List Char) : List Char → Bool
  | [] => needle.isEmpty
  | c :: rest => leadsList needle (c :: rest) || containsSub needle rest

/-- Python `s1 in s2` on strings. -/
def pyInStr (needle hay : String) : Bool :=
  containsSub needle.toList hay.toList

/-- Python `int(s)` on a string: surrounding whitespace allowed, an
optional sign, then a non-empty run of decimal digits; anything else
raises `ValueError` (modelled as `none`). -/
def parsePyIntString (s : String) : Option Int :=
  let t := trimChars s.toList
  let (sign, digits) :=
    match t with
    | '-' :: rest => ((-1 : Int), rest)
    | '+' :: rest => ((1 : Int), rest)
    | _ => ((1 : Int), t)
  if digits.isEmpty then none
  else if digits.all Char.isDigit then
    some (sign * Int.ofNat (digits.foldl (fun acc c => acc * 10 + (c.toNat - 48)) 0))
  else none

/-- Python `int(v)`: succeeds on bools, ints and integer strings;
raises (`none`) on `None`, lists, dicts and non-numeric strings. -/
def pythonInt : JVal → Option Int
  | JVal.jbool b => some (if b then 1 else 0)
  | JVal.jint n => some n
  | JVal.jstr s => parsePyIntString s
  | _ => none

mutual

/-- Python `repr(v)` for a `JVal` (string escaping inside `repr` of
nested strings is not reproduced; only the overall shape matters). -/
def pyRepr : JVal → String
  | JVal.jnull => "None"
  | JVal.jbool true => "True"
  | JVal.jbool false => "False"
  | JVal.jint n => toString n
  | JVal.jstr s => "'" ++ s ++ "'"
  | JVal.jarr xs => "[" ++ pyReprList xs ++ "]"
  | JVal.jobj fs => "\x7b" ++ pyReprFields fs ++ "\x7d"

/-- Python `repr` of the elements of a list, comma separated. -/
def pyReprList : List JVal → String
  | [] => ""
  | [x] => pyRepr x
  | x :: xs => pyRepr x ++ ", " ++ pyReprList xs

/-- Python `repr` of the entries of a dict, comma separated. -/
def pyReprFields : List (String × JVal) → String
  | [] => ""
  | [(k, v)] => "'" ++ k ++ "': " ++ pyRepr v
  | (k, v) :: fs => "'" ++ k ++ "': " ++ pyRepr v ++ ", " ++ pyReprFields fs

end

/-- Python `str(v)`: the string itself for strings, `repr` otherwise
(`str(None) = "None"`, `str(True) = "True"`, `str(123) = "123"`, and
`str` of a list or dict is its `repr`). -/
def pyStr : JVal → String
  | JVal.jstr s => s
  | v => pyRepr v

/-- One listing of the catalog: a dict with keys `id`, `area`,
`location`, `type`, `price`, `desc`, `tags`
(cf. the fields used by `HouseRepository.query_houses` and
`ChatService.handle_chat`).  `price` is kept as a raw `JVal` so that
the repository's defensive `int(...)` handling is observable. -/
structure House where
  id : String
  area : String
  location : String
  type : String
  price : JVal
  desc : String
  tags : List String

/-- Region filter of `HouseRepository.query_houses` (house_repository.py
lines 67-73): active only when the `area` argument is a truthy string
with non-blank strip; a listing is kept when the stripped keyword occurs
as a substring of the listing's stripped `area` or `location`. -/
def regionKeep (area : JVal) (h : House) : Bool :=
  match area with
  | JVal.jstr s =>
    if s != "" && pyStrip s != "" then
      let key := pyStrip s
      pyInStr key (pyStrip h.area) || pyInStr key (pyStrip h.location)
    else true
  | _ => true

/-- Budget filter of `HouseRepository.query_houses` (lines 75-82):
only applied when `max_price` is not `None`; a listing whose price
fails `int(...)` is skipped (`except (TypeError, ValueError): continue`),
otherwise it is kept iff `price <= max_price`. -/
def priceKeep (max_price : Option Int) (h : House) : Bool :=
  match max_price with
  | none => true
  | some m =>
    match pythonInt h.price with
    | some p => decide (p ≤ m)
    | none => false

/-- The sort key `int(x.get("price", 0))` of line 87, for listings whose
price does parse (the `getD 0` branch is never reached on the sorted
list, because the sort is only performed when every key computation
succeeds). -/
def sortKey (h : House) : Int :=
  (pythonInt h.price).getD 0

/-- Boolean comparison used for the price sort. -/
def priceLE (a b : House) : Bool :=
  decide (sortKey a ≤ sortKey b)

/-- Core of `HouseRepository.query_houses` after the override unpacking:
filter by region and budget, then `results.sort(key=lambda x: int(x.get("price", 0)))`
and `results[:3]`.  Python's sort computes the key of every element of
`results`; if any `int(...)` raises, the exception propagates out of
`query_houses` — modelled by returning `none`.  Python's sort is stable,
modelled by `List.mergeSort`. -/
def query_houses_core (data : List House) (area : JVal) (max_price : Option Int) :
    Option (List House) :=
  let results := data.filter (fun h => regionKeep area h && priceKeep max_price h)
  if results.all (fun h => (pythonInt h.price).isSome) then
    some ((results.mergeSort priceLE).take 3)
  else
    none

/-- The structured search intent (`HouseSearchQuery` dataclass,
search_schema.py): `search_intent`, `area` (kept as a raw `JVal`,
since `from_dict` stores the payload's value with no cleaning) and
`max_price`. -/
structure HouseSearchQuery where
  search_intent : Bool
  area : JVal
  max_price : Option Int

/-- The value `HouseSearchQuery()` with the dataclass defaults:
`search_intent=False, area=None, max_price=None`. -/
def defaultQuery : HouseSearchQuery :=
  HouseSearchQuery.mk false JVal.jnull none

/-- Model of `HouseRepository.query_houses` (house_repository.py lines 32-107).
The Python signature is `query_houses(query=None, *, area=None,
max_price=None)`; an absent argument is `None` (`JVal.jnull` for `area`,
`none` for `max_price`).  Lines 50-55 unpack the `HouseSearchQuery`:
an explicit argument is only overridden by the query's field when the
argument itself is `None`. -/
def query_houses (data : List House) (query : Option HouseSearchQuery)
    (area : JVal) (max_price : Option Int) : Option (List House) :=
  let area' := match query with
    | some q => if area.isNull then q.area else area
    | none => area
  let max_price' := match query with
    | some q => if max_price.isNone then q.max_price else max_price
    | none => max_price
  query_houses_core data area' max_price'

/-- Model of `HouseSearchQuery.from_dict` (search_schema.py lines 23-54):
non-dict payloads yield the default query; `search_intent` is coerced
with `bool(...)`; `area` is passed through raw with no cleaning
(line 37); `max_price` is `None` for `None`/`""` and otherwise
`int(...)` with failures mapped to `None`. -/
def HouseSearchQuery.from_dict (data : JVal) : HouseSearchQuery :=
  match data with
  | JVal.jobj fields =>
    let search_intent := pyTruthy ((fields.lookup "search_intent").getD (JVal.jbool false))
    let area := (fields.lookup "area").getD JVal.jnull
    let raw_max_price := (fields.lookup "max_price").getD JVal.jnull
    let max_price : Option Int :=
      match raw_max_price with
      | JVal.jnull => none
      | JVal.jstr "" => none
      | v => pythonInt v
    HouseSearchQuery.mk search_intent area max_price
  | _ => defaultQuery

/-- Tail of `QueryParser.parse` (query_parser.py lines 88-117), starting
from the outcome of `json.loads` on the fence-stripped gateway text:
`none` models `json.loads` (or the gateway call) raising, which the
`except` block turns into the default query; a successful load is passed
to `HouseSearchQuery.from_dict`. -/
def parse_result (loaded : Option JVal) : HouseSearchQuery :=
  match loaded with
  | none => defaultQuery
  | some data => HouseSearchQuery.from_dict data

/-- The canonical field serialization of a `HouseSearchQuery`: the dict
with keys `search_intent`, `area`, `max_price` taken from the query
(stated from claim C9's wording of `serialize`). -/
def to_canonical_dict (q : HouseSearchQuery) : JVal :=
  JVal.jobj [("search_intent", JVal.jbool q.search_intent),
             ("area", q.area),
             ("max_price", match q.max_price with
               | some n => JVal.jint n
               | none => JVal.jnull)]


/-- One conversation message: a dict with `role` and `content`. -/
structure Msg where
  role : String
  content : String

/-- Python `history[-n:]` — the trailing window of at most `n` messages. -/
def lastN {α : Type} (n : Nat) (l : List α) : List α :=
  l.drop (l.length - n)

/-- The fixed initial assistant greeting installed by
`ChatService.__init__` and by the reset branch of `handle_chat`. -/
def initialGreeting : Msg :=
  Msg.mk "assistant" "您好，我是【安居找房】深圳区顾问小安。👋 请问您想找哪个区域（比如南山、福田）的房子？预算大概是多少呢？"

/-- The fixed reset keywords of `handle_chat` line 130. -/
def resetKeywords : List String := ["清空", "reset", "重置"]

/-- Reply for blank input (line 128). -/
def emptyInputReply : String := "您好，我没有听清楚，可以再说一遍吗？"

/-- Confirmation returned by the reset branch (line 137). -/
def resetReply : String := "已重置对话。"

/-- The fixed "system busy" message of line 191, carrying the error
detail. -/
def busyReply (e : String) : String :=
  "系统繁忙，请稍后再试。（错误：" ++ e ++ "）"

/-- The NLU parameter dict produced by
`ChatService._extract_query_params`. -/
structure QueryParams where
  search_intent : Bool
  area : Option String
  max_price : Option Int

/-- The `default` dict of `_extract_query_params` (lines 71-75). -/
def defaultParams : QueryParams :=
  QueryParams.mk false none none

/-- Area normalization of `_extract_query_params` (chat_service.py
lines 84-88): `None` stays `None`; a non-string is passed through
`str(..)` and stripped, with a blank result becoming `None`; a string
is stripped, with a blank result becoming `None`. -/
def normalize_area (raw : JVal) : Option String :=
  match raw with
  | JVal.jnull => none
  | JVal.jstr s => if pyStrip s == "" then none else some (pyStrip s)
  | v => if pyStrip (pyStr v) == "" then none else some (pyStrip (pyStr v))

/-- Field cleaning of `_extract_query_params` (lines 83-101) applied to
the value returned by `json.loads`: on a dict, `search_intent` is
coerced with `bool(..)`, `area` is normalized, `max_price` goes through
`int(..)` with failures becoming `None`; on a non-dict the attribute
error from `.get` is caught by the surrounding `except`, yielding the
default. -/
def clean_params (result : JVal) : QueryParams :=
  match result with
  | JVal.jobj fields =>
    let search_intent := (fields.lookup "search_intent").getD (JVal.jbool false)
    let area := normalize_area ((fields.lookup "area").getD JVal.jnull)
    let max_price := match (fields.lookup "max_price").getD JVal.jnull with
      | JVal.jnull => none
      | v => pythonInt v
    QueryParams.mk (pyTruthy search_intent) area max_price
  | _ => defaultParams

/-- The NLU extraction prompt of `_extract_query_params`
(lines 52-69). -/
def nluPrompt (history_text user_message : String) : String :=
  "\n你是一个租房场景的意图与参数提取助手。根据「对话历史」和「用户最新回复」，判断用户是否在表达「我要按条件查房源」的意图，并提取查询参数。\n\n对话历史：\n" ++ history_text ++ "\n\n用户最新回复：" ++ user_message ++ "\n\n---\n请只输出一个标准 JSON 对象，不要其他文字。字段说明：\n- search_intent: 用户是否在表达“按区域/预算查房源”的意图（true/false）\n- area: 意向区域关键词，如“南山”“福田”“科技园”；若无法提取或无关则 null\n- max_price: 预算上限（整数，单位元/月），如“4000以内”-> 4000；若无法提取或无关则 null\n\n示例：\n用户说“南山4000以内” -> \x7b\"search_intent\": true, \"area\": \"南山\", \"max_price\": 4000\x7d\n用户说“你好” -> \x7b\"search_intent\": false, \"area\": null, \"max_price\": null\x7d\n"

/-- Model of `ChatService._extract_query_params` (lines 40-106).  `gen` models
the injected LLM client's `generate_reply` (it may raise); `loads`
models `json.loads` (`none` = raised).  Any exception inside the `try`
block degrades to the default parameters. -/
def extract_query_params (gen : List Msg → Except String String)
    (loads : String → Option JVal) (history : List Msg)
    (user_message : String) : QueryParams :=
  let history_text := String.intercalate "\n"
    ((lastN 6 history).map (fun m => m.role ++ ": " ++ m.content))
  let prompt := nluPrompt history_text user_message
  match gen [Msg.mk "user" prompt] with
  | Except.error _ => defaultParams
  | Except.ok response_str =>
    let cleaned := pyStrip ((response_str.replace "```json" "").replace "```" "")
    match loads cleaned with
    | none => defaultParams
    | some result => clean_params result

/-- The human-readable context block of lines 165-168, one line per
listing. -/
def houseContext (houses : List House) : String :=
  "系统为您检索到以下房源：\n" ++ String.intercalate "\n"
    (houses.map (fun h =>
      "- [" ++ h.area ++ "-" ++ h.location ++ "] " ++ h.type ++ " "
        ++ pyStr h.price ++ "元/月，亮点：" ++ h.desc))

/-- Model of `ChatService.handle_chat` (lines 125-191).
`gen` is the LLM client, `render` models `render_prompt("system_chat.j2",
context=.., searched=..)` (which may raise, e.g. `TemplateNotFound`),
`loads` models `json.loads`, `repo` is the repository's catalog (`none`
when no repository is configured).  The result is the new history
together with either the returned reply (`Except.ok`) or an uncaught
exception propagating to the caller (`Except.error`).  Only the final
generation call sits inside a `try`; exceptions from `query_houses` or
from prompt rendering propagate. -/
def handle_chat (gen : List Msg → Except String String)
    (render : Option String → Bool → Except String String)
    (loads : String → Option JVal) (repo : Option (List House))
    (history : List Msg) (user_message : String) :
    List Msg × Except String String :=
  let text := pyStrip user_message
  if text == "" then
    (history, Except.ok emptyInputReply)
  else if resetKeywords.contains (pyLower text) then
    ([initialGreeting], Except.ok resetReply)
  else
    let params := extract_query_params gen loads history text
    let queried : Except String (Option String × Bool) :=
      if !params.search_intent then Except.ok (none, false)
      else match repo with
        | none => Except.ok (none, false)
        | some data =>
          let area := match params.area with
            | some a => JVal.jstr a
            | none => JVal.jnull
          match query_houses data none area params.max_price with
          | none => Except.error "ValueError: invalid literal for int()"
          | some houses =>
            if houses.isEmpty then Except.ok (none, true)
            else Except.ok (some (houseContext houses), true)
    match queried with
    | Except.error e => (history, Except.error e)
    | Except.ok (house_context, searched) =>
      match render house_context searched with
      | Except.error e => (history, Except.error e)
      | Except.ok system_prompt =>
        let messages := Msg.mk "system" system_prompt
          :: (lastN 10 history ++ [Msg.mk "user" text])
        match gen messages with
        | Except.ok reply =>
          (history ++ [Msg.mk "user" text, Msg.mk "assistant" reply],
           Except.ok reply)
        | Except.error e => (history, Except.ok (busyReply e))

/-- Model of `OpenAIClient.generate_reply` (openai_client.py lines 43-79).
`configured` is `self._client is not None`; `create` models the SDK
call `chat.completions.create` returning the `content` of each choice
(`Except.error` = the SDK raised).  The placeholder return for a
missing key happens before the `try`; inside it, empty `choices`,
`None`/empty content, and any raised exception each map to a fixed
human-readable string. -/
def gateway_generate_reply (configured : Bool)
    (create : Except String (List (Option String))) : String :=
  if !configured then
    "（提示：还没有配置 OPENAI_API_KEY / AI_API_KEY，目前是占位回复）\n\n当你配置好密钥和模型后，这里会返回真实大模型生成的答案。"
  else
    match create with
    | Except.error e => "调用 AI 接口失败：" ++ e
    | Except.ok choices =>
      match choices with
      | [] => "抱歉，AI 接口没有返回内容，请稍后再试。"
      | c :: _ =>
        match c with
        | none => "抱歉，AI 接口返回内容为空，请稍后再试。"
        | some s => if s == "" then "抱歉，AI 接口返回内容为空，请稍后再试。" else pyStrip s

/-- Python's `isinstance(v, dict)` test. -/
def JVal.isObj : JVal → Bool
  | JVal.jobj _ => true
  | _ => false

/-- A listing whose price (`"面议"`, "price on request") cannot be
interpreted as an integer, in region 南山. -/
def badPriceHouse : House :=
  House.mk "h_bad" "南山" "科技园" "一室一厅" (JVal.jstr "面议") "近地铁" []

/-- A well-priced listing in 南山. -/
def cheapHouse : House :=
  House.mk "h1" "南山" "科技园" "一室一厅" (JVal.jint 3000) "近地铁" []

/-- The conversation-history invariant of `ChatService`: the history
starts with the fixed assistant greeting and has odd length (the
greeting followed by complete user/assistant pairs). -/
def historyInvariant (h : List Msg) : Prop :=
  h.head? = some initialGreeting ∧ h.length % 2 = 1

example : pythonInt (JVal.jstr "4000") = some 4000 := by rfl
example : pythonInt (JVal.jstr "abc") = none := by rfl
example : pythonInt (JVal.jstr " -42 ") = some (-42) := by rfl
example : pyStr (JVal.jint 123) = "123" := by rfl
example : pyInStr "南山" "深圳南山科技园" = true := by rfl
example : pyInStr "福田" "深圳南山科技园" = false := by rfl

/-- Claim C4: `query_houses` uses an explicit non-null `area`/`max_price`
argument in preference to the corresponding field of the
`HouseSearchQuery`, field by field, and a null (omitted) explicit
argument leaves the query's field in effect — so passing null never
clears a non-null query field. -/
theorem query_houses_override_precedence (data : List House)
    (q : HouseSearchQuery) (area : JVal) (max_price : Option Int) :
    query_houses data (some q) area max_price =
      query_houses data none
        (if area.isNull then q.area else area)
        (if max_price.isNone then q.max_price else max_price) := rfl

/-- Claim C5: structured-query parsing never propagates a failure: the
result is total by construction, and when `json.loads` failed (`none`)
or produced a non-object payload, the result is exactly the default
`HouseSearchQuery(false, None, None)`. -/
theorem parse_result_default_on_failure :
    parse_result none = defaultQuery ∧
    ∀ v : JVal, v.isObj = false → parse_result (some v) = defaultQuery := by
  constructor
  · rfl
  · intro v hv
    cases v <;> simp_all [JVal.isObj, parse_result, HouseSearchQuery.from_dict]

/-- Witness for C5 at concrete garbage payloads. -/
theorem parse_result_default_on_failure_witness :
    parse_result (some (JVal.jstr "not json")) = defaultQuery ∧
    parse_result (some (JVal.jarr [JVal.jint 1])) = defaultQuery :=
  ⟨parse_result_default_on_failure.2 _ rfl, parse_result_default_on_failure.2 _ rfl⟩

/-- Claim C9: parsing the canonical field serialization of a valid
`HouseSearchQuery` (region null or a non-empty stripped string, budget
null or an integer) yields the query back unchanged. -/
theorem from_dict_roundtrip (q : HouseSearchQuery)
    (harea : q.area = JVal.jnull ∨
      ∃ s, q.area = JVal.jstr s ∧ pyStrip s = s ∧ s ≠ "") :
    HouseSearchQuery.from_dict (to_canonical_dict q) = q := by
  obtain ⟨si, area, mp⟩ := q
  cases mp <;>
    simp [to_canonical_dict, HouseSearchQuery.from_dict, List.lookup,
      pyTruthy, pythonInt]

/-- Witness for C9 at a concrete valid query. -/
theorem from_dict_roundtrip_witness :
    HouseSearchQuery.from_dict
      (to_canonical_dict (HouseSearchQuery.mk true (JVal.jstr "南山") (some 4000)))
      = HouseSearchQuery.mk true (JVal.jstr "南山") (some 4000) :=
  from_dict_roundtrip _ (Or.inr ⟨"南山", rfl, rfl, by decide⟩)

/-- Claim C8: for every expected failure mode of the completion call —
no API key configured, the SDK raising, empty `choices`, `None` or
empty `content` — the gateway returns the corresponding fixed
human-readable string (it is total, hence never raises). -/
theorem gateway_generate_reply_failure_modes :
    (∀ create, gateway_generate_reply false create =
      "（提示：还没有配置 OPENAI_API_KEY / AI_API_KEY，目前是占位回复）\n\n当你配置好密钥和模型后，这里会返回真实大模型生成的答案。") ∧
    (∀ e, gateway_generate_reply true (Except.error e) = "调用 AI 接口失败：" ++ e) ∧
    gateway_generate_reply true (Except.ok []) = "抱歉，AI 接口没有返回内容，请稍后再试。" ∧
    (∀ rest, gateway_generate_reply true (Except.ok (none :: rest)) =
      "抱歉，AI 接口返回内容为空，请稍后再试。") ∧
    (∀ rest, gateway_generate_reply true (Except.ok (some "" :: rest)) =
      "抱歉，AI 接口返回内容为空，请稍后再试。") :=
  ⟨fun _ => rfl, fun _ => rfl, rfl, fun _ => rfl, fun _ => rfl⟩

/-- Counterexample to claim C2 as stated: a non-string raw region value
(the integer `123`) is not mapped to null by
`ChatService._extract_query_params`; it is coerced with `str(..)` and
kept, yielding `"123"`. -/
theorem clean_params_nonstring_area_not_nulled :
    (clean_params (JVal.jobj [("area", JVal.jint 123)])).area ≠ none ∧
    (clean_params (JVal.jobj [("area", JVal.jint 123)])).area = some "123" := by
  have h : (clean_params (JVal.jobj [("area", JVal.jint 123)])).area = some "123" := rfl
  exact ⟨by rw [h]; exact Option.some_ne_none _, h⟩

/-- Claim C2 (amended): `_extract_query_params` maps the raw region
value to null exactly when it is `None` or its Python string coercion
(`str(..)`, the identity on strings) strips to the empty string; any
other value — string or not — yields the stripped string coercion.
`HouseSearchQuery.from_dict` performs no region normalization at all:
the raw payload value is stored unchanged. -/
theorem normalize_area_characterization :
    (∀ v : JVal,
      (normalize_area v = none ↔ (v = JVal.jnull ∨ pyStrip (pyStr v) = "")) ∧
      (∀ s, normalize_area v = some s → s = pyStrip (pyStr v) ∧ s ≠ "")) ∧
    (∀ fields, (clean_params (JVal.jobj fields)).area =
      normalize_area ((fields.lookup "area").getD JVal.jnull)) ∧
    (∀ fields, (HouseSearchQuery.from_dict (JVal.jobj fields)).area =
      (fields.lookup "area").getD JVal.jnull) := by
  have hform : ∀ v : JVal, v ≠ JVal.jnull →
      normalize_area v =
        if (pyStrip (pyStr v) == "") = true then none
        else some (pyStrip (pyStr v)) := by
    intro v hv
    cases v <;> first | exact absurd rfl hv | rfl
  refine ⟨fun v => ?_, fun _ => rfl, fun _ => rfl⟩
  by_cases hv : v = JVal.jnull
  · subst hv
    refine ⟨⟨fun _ => Or.inl rfl, fun _ => rfl⟩, fun s hs => ?_⟩
    simp [normalize_area] at hs
  · rw [hform v hv]
    by_cases ht : pyStrip (pyStr v) = ""
    · simp [ht, hv]
    · refine ⟨?_, ?_⟩
      · simp [beq_iff_eq, ht, hv]
      · intro s hs
        simp [beq_iff_eq, ht] at hs
        exact ⟨hs.symm, hs ▸ ht⟩

/-- Witness for the C2 characterization at a concrete whitespace-padded
string region. -/
theorem normalize_area_characterization_witness :
    "南山" = pyStrip (pyStr (JVal.jstr " 南山 ")) ∧ "南山" ≠ "" :=
  (normalize_area_characterization.1 (JVal.jstr " 南山 ")).2 "南山" rfl

/-- Counterexample to claim C1 as stated: with `max_price = None` and a
region-matching listing whose price does not parse as an integer,
`query_houses` does not return a result with the listing excluded — the
budget `try/except` is never entered, the listing reaches the sort, and
the sort key `int(..)` raises, so the call produces no result at all
(modelled as `none`). -/
theorem query_houses_unparsable_price_null_budget_raises :
    query_houses [badPriceHouse] none (JVal.jstr "南山") none = none := rfl

theorem query_houses_core_some (data : List House) (area : JVal) (m : Option Int)
    (hall : ∀ h ∈ data.filter (fun h => regionKeep area h && priceKeep m h),
      (pythonInt h.price).isSome = true) :
    query_houses_core data area m =
      some (((data.filter (fun h => regionKeep area h && priceKeep m h)).mergeSort
        priceLE).take 3) := by
  unfold query_houses_core
  simp only [List.all_eq_true.mpr hall, if_true]

theorem query_houses_core_none (data : List House) (area : JVal) (m : Option Int)
    (h : House)
    (hmem : h ∈ data.filter (fun h => regionKeep area h && priceKeep m h))
    (hbad : pythonInt h.price = none) :
    query_houses_core data area m = none := by
  unfold query_houses_core
  have hfalse :
      (data.filter (fun h => regionKeep area h && priceKeep m h)).all
        (fun h => (pythonInt h.price).isSome) = false :=
    List.all_eq_false.mpr ⟨h, hmem, by simp [hbad]⟩
  simp only [hfalse, Bool.false_eq_true, if_false]

theorem priceKeep_some_parsable {m : Int} {h : House}
    (hk : priceKeep (some m) h = true) : (pythonInt h.price).isSome = true := by
  unfold priceKeep at hk
  cases hp : pythonInt h.price with
  | none => rw [hp] at hk; cases hk
  | some p => simp [hp]

/-- Claim C1 (amended): the budget filter fails closed only when a
budget is actually given — with `max_price` non-null, `query_houses`
always returns a result and every returned listing has a parsable
price; with `max_price` null, the budget filter is skipped entirely,
and a region-matching listing with unparsable price makes the final
price sort raise, so the call returns no result at all. -/
theorem budget_filter_fail_closed_only_with_budget :
    (∀ (data : List House) (area : JVal) (m : Int),
      ∃ r, query_houses data none area (some m) = some r ∧
        ∀ h ∈ r, (pythonInt h.price).isSome = true) ∧
    (∀ (data : List House) (area : JVal),
      (∃ h ∈ data, regionKeep area h = true ∧ pythonInt h.price = none) →
      query_houses data none area none = none) := by
  constructor
  · intro data area m
    have hall : ∀ h ∈ data.filter (fun h => regionKeep area h && priceKeep (some m) h),
        (pythonInt h.price).isSome = true := by
      intro h hmem
      exact priceKeep_some_parsable ((Bool.and_eq_true _ _).mp (List.mem_filter.mp hmem).2).2
    refine ⟨_, query_houses_core_some data area (some m) hall, ?_⟩
    intro h hmem
    exact hall h (List.mem_mergeSort.mp (List.mem_of_mem_take hmem))
  · rintro data area ⟨h, hmem, hregion, hbad⟩
    refine query_houses_core_none data area none h ?_ hbad
    refine List.mem_filter.mpr ⟨hmem, ?_⟩
    simp [hregion, priceKeep]

/-- Witness for the amended C1 at concrete inputs: with a budget, the
unparsable-price listing is excluded from a successfully returned
result; without a budget, the same listing makes the call raise. -/
theorem budget_filter_fail_closed_only_with_budget_witness :
    (∃ r, query_houses [badPriceHouse, cheapHouse] none (JVal.jstr "南山") (some 5000) = some r ∧
      ∀ h ∈ r, (pythonInt h.price).isSome = true) ∧
    query_houses [badPriceHouse, cheapHouse] none (JVal.jstr "南山") none = none :=
  ⟨budget_filter_fail_closed_only_with_budget.1 [badPriceHouse, cheapHouse] (JVal.jstr "南山") 5000,
   budget_filter_fail_closed_only_with_budget.2 [badPriceHouse, cheapHouse] (JVal.jstr "南山")
     ⟨badPriceHouse, by simp, rfl, rfl⟩⟩

theorem priceLE_trans : ∀ (a b c : House),
    priceLE a b → priceLE b c → priceLE a c := by
  intro a b c hab hbc
  simp only [priceLE, decide_eq_true_eq] at *
  omega

theorem priceLE_total : ∀ (a b : House), priceLE a b || priceLE b a := by
  intro a b
  rcases Int.le_total (sortKey a) (sortKey b) with h | h <;>
    simp [priceLE, h]

/-- Claim C6: for all region and budget arguments (over any catalog
whose prices all parse, as the real catalog's integer prices do),
`query_houses` returns a result of length at most 3, sorted by
non-decreasing price, and stable: the listings of any fixed price
appear as a subsequence of the catalog's listings of that price, in
catalog order.  Truncation to 3 happens after sorting, hence the
returned window is itself sorted. -/
theorem query_houses_ranked_bounded_stable
    (data : List House) (area : JVal) (max_price : Option Int)
    (hdata : ∀ h ∈ data, (pythonInt h.price).isSome = true) :
    ∃ r, query_houses data none area max_price = some r ∧
      r.length ≤ 3 ∧
      r.Pairwise (fun a b => sortKey a ≤ sortKey b) ∧
      ∀ p : Int, List.Sublist (r.filter (fun h => pythonInt h.price == some p))
        (data.filter (fun h => pythonInt h.price == some p)) := by
  have hall : ∀ h ∈ data.filter (fun h => regionKeep area h && priceKeep max_price h),
      (pythonInt h.price).isSome = true := by
    intro h hmem
    exact hdata h (List.mem_filter.mp hmem).1
  refine ⟨_, query_houses_core_some data area max_price hall, ?_, ?_, ?_⟩
  · exact List.length_take_le 3 _
  · refine List.Pairwise.imp ?_
      ((List.sorted_mergeSort priceLE_trans priceLE_total _).sublist
        (List.take_sublist 3 _))
    intro a b hab
    simpa [priceLE] using hab
  · intro p
    set q : House → Bool := fun h => pythonInt h.price == some p with hq
    set F := data.filter (fun h => regionKeep area h && priceKeep max_price h) with hF
    have hsubF : List.Sublist F data := List.filter_sublist data
    have hcq : ∀ a ∈ F.filter q, q a = true := fun a ha => (List.mem_filter.mp ha).2
    have hkey : ∀ a ∈ F.filter q, sortKey a = p := by
      intro a ha
      have := hcq a ha
      simp only [hq, beq_iff_eq] at this
      simp [sortKey, this]
    have hc_pairwise : (F.filter q).Pairwise (fun a b => priceLE a b) := by
      refine List.pairwise_of_forall_mem_list ?_
      intro a ha b hb
      simp [priceLE, hkey a ha, hkey b hb]
    have h1 : List.Sublist (F.filter q) (F.mergeSort priceLE) :=
      List.sublist_mergeSort priceLE_trans priceLE_total hc_pairwise
        (List.filter_sublist F)
    have h2 : List.Sublist (F.filter q) ((F.mergeSort priceLE).filter q) := by
      have := h1.filter q
      rwa [List.filter_eq_self.mpr hcq] at this
    have h3 : ((F.mergeSort priceLE).filter q).length = (F.filter q).length :=
      ((List.mergeSort_perm F priceLE).filter q).length_eq
    have h4 : (F.mergeSort priceLE).filter q = F.filter q :=
      (h2.eq_of_length h3.symm).symm
    have hA : List.Sublist (((F.mergeSort priceLE).take 3).filter q)
        ((F.mergeSort priceLE).filter q) := (List.take_sublist 3 _).filter q
    rw [h4] at hA
    exact hA.trans (hsubF.filter q)

/-- Witness for C6 at a concrete all-integer catalog. -/
theorem query_houses_ranked_bounded_stable_witness :
    ∃ r, query_houses [cheapHouse] none JVal.jnull none = some r ∧
      r.length ≤ 3 ∧
      r.Pairwise (fun a b => sortKey a ≤ sortKey b) ∧
      ∀ p : Int, List.Sublist (r.filter (fun h => pythonInt h.price == some p))
        ([cheapHouse].filter (fun h => pythonInt h.price == some p)) :=
  query_houses_ranked_bounded_stable [cheapHouse] JVal.jnull none
    (by intro h hmem; simp at hmem; subst hmem; rfl)

/-- Counterexample to claim C3 as stated: an exception raised after
intent extraction but outside the generation `try` — here
`render_prompt` raising `TemplateNotFound` while assembling the final
message list — propagates out of `handle_chat` instead of being turned
into the "system busy" message (history is still unchanged). -/
theorem handle_chat_render_failure_propagates :
    handle_chat (fun _ => Except.error "boom")
      (fun _ _ => Except.error "TemplateNotFound: system_chat.j2")
      (fun _ => none) none [initialGreeting] "你好"
      = ([initialGreeting], Except.error "TemplateNotFound: system_chat.j2") := rfl

/-- Claim C3 (amended): when the final reply-generation call raises,
`handle_chat` catches it, returns the fixed busy message carrying the
error detail, and leaves the history exactly unchanged — no partial
append of only the user turn.  Only the generation call sits inside
the `try`: exceptions from prompt rendering or the store query
propagate out of `handle_chat` (still leaving history unchanged). -/
theorem handle_chat_generation_failure_busy
    (gen : List Msg → Except String String)
    (render : Option String → Bool → Except String String)
    (loads : String → Option JVal) (repo : Option (List House))
    (history : List Msg) (input : String) (e : String)
    (hfinal : ∀ sys, gen (Msg.mk "system" sys
      :: (lastN 10 history ++ [Msg.mk "user" (pyStrip input)])) = Except.error e)
    (hrender : ∀ c s, ∃ out, render c s = Except.ok out)
    (hrepo : ∀ data, repo = some data →
      ∀ h ∈ data, (pythonInt h.price).isSome = true)
    (htext : pyStrip input ≠ "")
    (hreset : resetKeywords.contains (pyLower (pyStrip input)) = false) :
    handle_chat gen render loads repo history input =
      (history, Except.ok (busyReply e)) := by
  have h1 : (pyStrip input == "") = false := beq_eq_false_iff_ne.mpr htext
  have hclose : ∀ (c : Option String) (s : Bool),
      (match render c s with
       | Except.error err => (history, Except.error err)
       | Except.ok system_prompt =>
         match gen (Msg.mk "system" system_prompt
             :: (lastN 10 history ++ [Msg.mk "user" (pyStrip input)])) with
         | Except.ok reply =>
           (history ++ [Msg.mk "user" (pyStrip input),
             Msg.mk "assistant" reply], Except.ok reply)
         | Except.error err => (history, Except.ok (busyReply err)))
      = (history, Except.ok (busyReply e)) := by
    intro c s
    obtain ⟨out, hout⟩ := hrender c s
    rw [hout]
    dsimp only
    rw [hfinal out]
  unfold handle_chat
  dsimp only
  rw [if_neg (by simp [h1]), if_neg (by simpa using hreset)]
  rcases hE : extract_query_params gen loads history (pyStrip input) with ⟨si, ar, mp⟩
  cases si with
  | false => exact hclose none false
  | true =>
    dsimp only
    cases repo with
    | none => exact hclose none false
    | some data =>
      clear hE
      have hq := query_houses_core_some data
        (match ar with | some a => JVal.jstr a | none => JVal.jnull) mp
        (fun h hm => hrepo data rfl h (List.mem_filter.mp hm).1)
      obtain ⟨r, hqr⟩ : ∃ r, query_houses_core data
          (match ar with | some a => JVal.jstr a | none => JVal.jnull) mp = some r :=
        ⟨_, hq⟩
      dsimp only [query_houses]
      rw [hqr]
      cases r with
      | nil => exact hclose none true
      | cons hh ht => exact hclose _ true

/-- Witness for the amended C3: a failing gateway yields the busy
message and an unchanged one-element history. -/
theorem handle_chat_generation_failure_busy_witness :
    handle_chat (fun _ => Except.error "rate limited")
      (fun _ _ => Except.ok "sys") (fun _ => none) none [initialGreeting] "你好"
      = ([initialGreeting], Except.ok (busyReply "rate limited")) :=
  handle_chat_generation_failure_busy _ _ _ _ _ _ _
    (fun _ => rfl) (fun _ _ => ⟨"sys", rfl⟩) (fun _ h => nomatch h)
    (by decide) rfl

/-- Claim C7: an input whose trimmed text case-insensitively matches a
reset keyword resets the history to exactly the single-element initial
greeting and returns the fixed confirmation string.  The gateway,
extractor, store and loads arguments are universally quantified and the
result does not depend on them: no other component is invoked. -/
theorem handle_chat_reset
    (gen : List Msg → Except String String)
    (render : Option String → Bool → Except String String)
    (loads : String → Option JVal) (repo : Option (List House))
    (history : List Msg) (input : String)
    (hkw : resetKeywords.contains (pyLower (pyStrip input)) = true) :
    handle_chat gen render loads repo history input =
      ([initialGreeting], Except.ok resetReply) := by
  have htext : (pyStrip input == "") = false := by
    cases hb : (pyStrip input == "") with
    | false => rfl
    | true =>
      rw [eq_of_beq hb] at hkw
      exact absurd hkw (by decide)
  simp only [handle_chat, htext, Bool.false_eq_true, if_false, hkw, if_true]

/-- Witness for C7: `"RESET"` (upper case, any prior history) resets. -/
theorem handle_chat_reset_witness :
    handle_chat (fun _ => Except.error "x") (fun _ _ => Except.error "y")
      (fun _ => none) none [] "RESET"
      = ([initialGreeting], Except.ok resetReply) :=
  handle_chat_reset _ _ _ _ [] "RESET" (by decide)

theorem historyInvariant_append_pair (h : List Msg) (u a : Msg)
    (hinv : historyInvariant h) : historyInvariant (h ++ [u, a]) := by
  obtain ⟨hhead, hlen⟩ := hinv
  cases h with
  | nil => cases hhead
  | cons x t =>
    simp only [List.head?_cons, Option.some.injEq] at hhead
    refine ⟨by simp [hhead], ?_⟩
    simp only [List.length_cons, List.length_append, List.length_cons,
      List.length_nil] at *
    omega

/-- Claim C10: after construction and after every `handle_chat` call —
any input, any branch, success or failure — the history starts with
the fixed assistant greeting and has odd length (the greeting followed
by zero or more complete user/assistant pairs): turns are appended two
at a time, failures leave the history unchanged, and reset restores
the single greeting. -/
theorem handle_chat_preserves_history_invariant :
    historyInvariant [initialGreeting] ∧
    ∀ gen render loads repo history input,
      historyInvariant history →
      historyInvariant (handle_chat gen render loads repo history input).1 := by
  refine ⟨⟨rfl, rfl⟩, ?_⟩
  intro gen render loads repo history input hinv
  unfold handle_chat
  dsimp only
  split
  · exact hinv
  split
  · exact ⟨rfl, rfl⟩
  split
  · exact hinv
  split
  · exact hinv
  split
  · exact historyInvariant_append_pair _ _ _ hinv
  · exact hinv

/-- Witness for C10 at a concrete failing-gateway call. -/
theorem handle_chat_preserves_history_invariant_witness :
    historyInvariant (handle_chat (fun _ => Except.error "x")
      (fun _ _ => Except.ok "sys") (fun _ => none) none
      [initialGreeting] "你好").1 :=
  handle_chat_preserves_history_invariant.2 _ _ _ _ _ _ ⟨rfl, rfl⟩
